import Mathlib

/-!
Verification of the security-review API handlers of chromium-dashboard
(`api/security_review_api.py`), embedded shallowly: the two request
handlers `do_get` and `do_post` become pure Lean functions over an
explicit environment of collaborators (entity store, permission checker,
origin-trials client).  Each handler returns the list of observable side
effects it performed (external calls and datastore writes), in order,
together with its HTTP outcome.
-/

/-- A JSON value as it appears in a deserialized request field: either a
Python `int` or some other (non-integer) value, represented here by its
string rendering.  The handler only distinguishes `None`, `int`, and
`not-an-int`, so non-integer values are collapsed into one constructor. -/
inductive PyVal where
  | int (i : Int)
  | str (s : String)
deriving DecidableEq, Repr

/-- The deserialized POST body `CreateLaunchIssueRequest`: fields
`feature_id` and `gate_id`, each possibly absent (`None`) or present with
an arbitrary JSON value. -/
structure CreateLaunchIssueRequest where
  feature_id : Option PyVal
  gate_id : Option PyVal
deriving DecidableEq, Repr

/-- The `FeatureEntry` datastore entity, restricted to the fields this
handler reads or writes: `continuity_id` and `launch_issue_id`. -/
structure FeatureEntry where
  continuity_id : Option Int
  launch_issue_id : Option Int
deriving DecidableEq, Repr

/-- The `Gate` datastore entity; only its existence matters here. -/
structure Gate where
  id : Int
deriving DecidableEq, Repr

/-- Modelled from the spec: the `VerifyContinuityIssueResponse` schema of
the external `chromestatus_openapi` models package (not part of the core
source file); it carries the resolved fields of the upstream response,
here the associated launch issue id. -/
structure VerifyContinuityIssueResponse where
  launch_issue_id : Option Int
deriving DecidableEq, Repr

/-- The upstream dictionary returned by `verify_continuity_issue`; same
fields as the response schema, before the `from_dict` mapping. -/
structure VerifyRespDict where
  launch_issue_id : Option Int
deriving DecidableEq, Repr

/-- Modelled from the spec: `VerifyContinuityIssueResponse.from_dict`
(external generated code) maps the upstream dictionary into the response
schema field by field. -/
def VerifyContinuityIssueResponse.from_dict (d : VerifyRespDict) :
    VerifyContinuityIssueResponse :=
  { launch_issue_id := d.launch_issue_id }

/-- Behaviour of one call to `origin_trials_client.verify_continuity_issue`:
it returns a dictionary, raises `requests.exceptions.RequestException`
(transport error), or raises `KeyError` (malformed payload). -/
inductive VerifyContinuityIssueResult where
  | ok (resp : VerifyRespDict)
  | requestException
  | keyError
deriving DecidableEq, Repr

/-- Behaviour of one call to `origin_trials_client.create_launch_issue`:
it returns a pair `(issue_id, failed_reason)`, raises
`requests.exceptions.RequestException`, or raises `KeyError`. -/
inductive CreateLaunchIssueResult where
  | ret (issue_id : Option Int) (failed_reason : Option String)
  | requestException
  | keyError
deriving DecidableEq, Repr

/-- The environment of collaborators a request is handled in: entity
lookups (`FeatureEntry.get_by_id`, `Gate.get_by_id`), the permission
checker (`permissions.validate_feature_edit_permission`, whose non-`None`
redirect result means permission denied), and the two external-client
calls with their behaviour for each argument. -/
structure Env where
  featureEntryById : Int → Option FeatureEntry
  gateById : Int → Option Gate
  validate_feature_edit_permission : Int → Option Unit
  create_launch_issue : Int → Int → Option Int → CreateLaunchIssueResult
  verify_continuity_issue : Int → VerifyContinuityIssueResult

/-- An observable side effect of a handler, in the order performed: an
outbound call to the verification client, an outbound call to the
issue-creation client, or a datastore write (`feature.put()`) setting
`launch_issue_id` on the feature. -/
inductive Event where
  | callVerifyContinuityIssue (continuity_id : Int)
  | callCreateLaunchIssue (feature_id : Int) (gate_id : Int)
      (continuity_id : Option Int)
  | putFeature (feature_id : Int) (launch_issue_id : Int)
deriving DecidableEq, Repr

/-- The HTTP outcome of a handler: `self.abort(status, msg)`, a
`SuccessMessage` (HTTP 200), or a `VerifyContinuityIssueResponse`
(HTTP 200). -/
inductive Outcome where
  | abort (status : Nat) (msg : String)
  | success (msg : String)
  | verifyResponse (r : VerifyContinuityIssueResponse)
deriving DecidableEq, Repr

/-- Digits of a numeral read into a natural number. -/
def digitsToNat (l : List Char) : Nat :=
  l.foldl (fun acc c => acc * 10 + (c.toNat - 48)) 0

/-- Characters stripped by Python `int()` before parsing. -/
def isPySpace (c : Char) : Bool :=
  c == ' ' || c == '\t' || c == '\n' || c == '\r'

/-- Python `int(s)` on a string, as used by the handler: strips
surrounding whitespace, then accepts an optional sign followed by one or
more decimal digits; any other string raises `ValueError` (here `none`). -/
def pyIntOfString (s : String) : Option Int :=
  let cs :=
    ((s.toList.dropWhile isPySpace).reverse.dropWhile isPySpace).reverse
  match cs with
  | [] => none
  | c :: rest =>
    if c = '-' then
      if !rest.isEmpty && rest.all Char.isDigit then
        some (-(Int.ofNat (digitsToNat rest)))
      else none
    else if c = '+' then
      if !rest.isEmpty && rest.all Char.isDigit then
        some (Int.ofNat (digitsToNat rest))
      else none
    else
      if cs.all Char.isDigit then some (Int.ofNat (digitsToNat cs))
      else none

/-- Python truthiness of an optional string (`if failed_reason:`): `None`
and the empty string are falsy. -/
def pyTruthy : Option String → Bool
  | none => false
  | some s => !(s == "")

/-- Python `str()` of an optional integer, as interpolated into the
success message: `None` renders as the literal string `None`. -/
def pyStrOptInt : Option Int → String
  | none => "None"
  | some i => toString i

/-- `SecurityReviewAPI.do_get`: verify a continuity issue ID.  The
`continuity_id` keyword argument is absent or a string; the handler
returns its trace of side effects and its outcome. -/
def do_get (env : Env) (continuity_id_arg : Option String) :
    List Event × Outcome :=
  match continuity_id_arg with
  | none => ([], .abort 400 "No continuity ID specified.")
  | some s =>
    if s == "" then ([], .abort 400 "No continuity ID specified.")
    else
      match pyIntOfString s with
      | none => ([], .abort 400 "Invalid continuity ID.")
      | some continuity_id =>
        match env.verify_continuity_issue continuity_id with
        | .requestException =>
            ([.callVerifyContinuityIssue continuity_id],
             .abort 500 "Error obtaining origin trial data from API")
        | .keyError =>
            ([.callVerifyContinuityIssue continuity_id],
             .abort 500 "Malformed response from origin trials API")
        | .ok resp =>
            ([.callVerifyContinuityIssue continuity_id],
             .verifyResponse (VerifyContinuityIssueResponse.from_dict resp))

/-- `SecurityReviewAPI.do_post`: create a new security review issue.
Mirrors the source line by line: validation of `feature_id`, feature
lookup, duplicate-issue check, permission check, validation of `gate_id`,
gate lookup, external call, conditional persistence, conditional abort on
`failed_reason`, success message. -/
def do_post (env : Env) (body : CreateLaunchIssueRequest) :
    List Event × Outcome :=
  match body.feature_id with
  | none => ([], .abort 400 "No feature specified.")
  | some (.str _) => ([], .abort 400 "Invalid feature ID.")
  | some (.int feature_id) =>
    match env.featureEntryById feature_id with
    | none =>
        ([], .abort 404 ("Feature " ++ toString feature_id ++ " not found"))
    | some feature =>
      match feature.launch_issue_id with
      | some _ =>
          ([], .abort 400 "Feature already has a security review issue.")
      | none =>
        match env.validate_feature_edit_permission feature_id with
        | some _ =>
            ([], .abort 403
              "User does not have permission to edit this feature.")
        | none =>
          match body.gate_id with
          | none => ([], .abort 400 "No gate specified.")
          | some (.str _) => ([], .abort 400 "Invalid gate ID.")
          | some (.int gate_id) =>
            match env.gateById gate_id with
            | none =>
                ([], .abort 404
                  ("Gate " ++ toString gate_id ++ " not found"))
            | some _ =>
              match env.create_launch_issue feature_id gate_id
                  feature.continuity_id with
              | .requestException =>
                  ([.callCreateLaunchIssue feature_id gate_id
                      feature.continuity_id],
                   .abort 500 "Error obtaining origin trial data from API")
              | .keyError =>
                  ([.callCreateLaunchIssue feature_id gate_id
                      feature.continuity_id],
                   .abort 500 "Malformed response from origin trials API")
              | .ret issue_id failed_reason =>
                  let callEv := Event.callCreateLaunchIssue feature_id
                    gate_id feature.continuity_id
                  let putEvs : List Event :=
                    match issue_id with
                    | some iid => [Event.putFeature feature_id iid]
                    | none => []
                  if pyTruthy failed_reason then
                    (callEv :: putEvs,
                     .abort 500 (failed_reason.getD ""))
                  else
                    (callEv :: putEvs,
                     .success ("Security review issue " ++
                       pyStrOptInt issue_id ++ " created"))

/-! Concrete fixtures used by the witness theorems: a store holding
feature 42 (continuity id 777, no launch issue yet) and gate 7, plus a
variant where feature 42 already has a launch issue. -/

def featuresW : Int → Option FeatureEntry := fun i =>
  if i = 42 then some { continuity_id := some 777, launch_issue_id := none }
  else none

def featuresDupW : Int → Option FeatureEntry := fun i =>
  if i = 42 then some { continuity_id := none, launch_issue_id := some 99 }
  else none

def envWith (features : Int → Option FeatureEntry) (perm : Int → Option Unit)
    (cr : CreateLaunchIssueResult) (vr : VerifyContinuityIssueResult) : Env :=
  { featureEntryById := features,
    gateById := fun i => if i = 7 then some { id := 7 } else none,
    validate_feature_edit_permission := perm,
    create_launch_issue := fun _ _ _ => cr,
    verify_continuity_issue := fun _ => vr }

def bodyW : CreateLaunchIssueRequest :=
  { feature_id := some (.int 42), gate_id := some (.int 7) }

/-- If a parse of the string succeeds, the string is nonempty. -/
theorem pyIntOfString_ne_of_some {s : String} {c : Int}
    (h : pyIntOfString s = some c) : ¬(s = "") := by
  intro he
  subst he
  exact absurd h (by simp [pyIntOfString, isPySpace])

/-- Claim C1: when the external create_launch_issue call returns a pair
with issue_id present and failed_reason non-empty, do_post persists the
issue_id onto the feature (the putFeature write appears in the trace,
after the external call) and then aborts with HTTP 500 whose message is
exactly that failed_reason; the persisted write stays in the trace, so it
is not rolled back. -/
theorem do_post_persists_issue_id_before_failed_reason_abort
    (env : Env) (body : CreateLaunchIssueRequest)
    (feature_id gate_id iid : Int) (feature : FeatureEntry) (g : Gate)
    (fr : String)
    (hfid : body.feature_id = some (.int feature_id))
    (hfeat : env.featureEntryById feature_id = some feature)
    (hli : feature.launch_issue_id = none)
    (hperm : env.validate_feature_edit_permission feature_id = none)
    (hgid : body.gate_id = some (.int gate_id))
    (hgate : env.gateById gate_id = some g)
    (hcall : env.create_launch_issue feature_id gate_id feature.continuity_id
              = .ret (some iid) (some fr))
    (hfr : fr ≠ "") :
    do_post env body =
      ([Event.callCreateLaunchIssue feature_id gate_id feature.continuity_id,
        Event.putFeature feature_id iid],
       Outcome.abort 500 fr) := by
  simp [do_post, hfid, hfeat, hli, hperm, hgid, hgate, hcall, pyTruthy, hfr]

/-- Witness for claim C1: feature 42, gate 7, external call returns
issue 555 with failed reason, so the write to the feature is recorded
and the request still fails with 500 and that reason. -/
theorem do_post_persists_issue_id_before_failed_reason_abort_witness :
    do_post
      (envWith featuresW (fun _ => none)
        (.ret (some 555) (some "tracker quota exceeded"))
        .requestException)
      bodyW =
    ([Event.callCreateLaunchIssue 42 7 (some 777), Event.putFeature 42 555],
     Outcome.abort 500 "tracker quota exceeded") :=
  do_post_persists_issue_id_before_failed_reason_abort
    (envWith featuresW (fun _ => none)
      (.ret (some 555) (some "tracker quota exceeded")) .requestException)
    bodyW 42 7 555
    { continuity_id := some 777, launch_issue_id := none } { id := 7 }
    "tracker quota exceeded"
    rfl rfl rfl rfl rfl rfl rfl (by decide)

/-- Claim C3: when the feature exists with no launch issue, permission is
granted, the gate exists, and the external call returns an integer
issue_id and no failure reason, do_post persists launch_issue_id =
issue_id (the putFeature write is in the trace) and returns the success
message of the exact form demanded. -/
theorem do_post_success_persists_and_confirms
    (env : Env) (body : CreateLaunchIssueRequest)
    (feature_id gate_id iid : Int) (feature : FeatureEntry) (g : Gate)
    (hfid : body.feature_id = some (.int feature_id))
    (hfeat : env.featureEntryById feature_id = some feature)
    (hli : feature.launch_issue_id = none)
    (hperm : env.validate_feature_edit_permission feature_id = none)
    (hgid : body.gate_id = some (.int gate_id))
    (hgate : env.gateById gate_id = some g)
    (hcall : env.create_launch_issue feature_id gate_id feature.continuity_id
              = .ret (some iid) none) :
    do_post env body =
      ([Event.callCreateLaunchIssue feature_id gate_id feature.continuity_id,
        Event.putFeature feature_id iid],
       Outcome.success
         ("Security review issue " ++ toString iid ++ " created")) := by
  simp [do_post, hfid, hfeat, hli, hperm, hgid, hgate, hcall, pyTruthy,
    pyStrOptInt]

/-- Witness for claim C3: feature 42, gate 7, external call returns
issue 555 and no failure; the issue id is persisted and the message is
exactly the expected confirmation. -/
theorem do_post_success_persists_and_confirms_witness :
    do_post
      (envWith featuresW (fun _ => none) (.ret (some 555) none)
        .requestException)
      bodyW =
    ([Event.callCreateLaunchIssue 42 7 (some 777), Event.putFeature 42 555],
     Outcome.success "Security review issue 555 created") :=
  do_post_success_persists_and_confirms
    (envWith featuresW (fun _ => none) (.ret (some 555) none)
      .requestException)
    bodyW 42 7 555
    { continuity_id := some 777, launch_issue_id := none } { id := 7 }
    rfl rfl rfl rfl rfl rfl rfl

/-- Claim C4: when the target feature exists and already has a non-null
launch_issue_id, do_post aborts with 400 regardless of gate validity,
permission, or external behaviour, with an empty side-effect trace: no
external call is made and nothing is written, so a feature can never
acquire a second launch issue through this handler. -/
theorem do_post_duplicate_launch_issue_rejected
    (env : Env) (body : CreateLaunchIssueRequest)
    (feature_id x : Int) (feature : FeatureEntry)
    (hfid : body.feature_id = some (.int feature_id))
    (hfeat : env.featureEntryById feature_id = some feature)
    (hdup : feature.launch_issue_id = some x) :
    do_post env body =
      ([], Outcome.abort 400 "Feature already has a security review issue.") := by
  simp [do_post, hfid, hfeat, hdup]

/-- Witness for claim C4: feature 42 already holds launch issue 99; the
request is rejected 400 with no side effects even though permission would
be denied and the gate id is missing. -/
theorem do_post_duplicate_launch_issue_rejected_witness :
    do_post
      (envWith featuresDupW (fun _ => some ()) (.ret (some 1) none)
        .requestException)
      { feature_id := some (.int 42), gate_id := none } =
    ([], Outcome.abort 400 "Feature already has a security review issue.") :=
  do_post_duplicate_launch_issue_rejected
    (envWith featuresDupW (fun _ => some ()) (.ret (some 1) none)
      .requestException)
    { feature_id := some (.int 42), gate_id := none } 42 99
    { continuity_id := none, launch_issue_id := some 99 }
    rfl rfl rfl

/-- Claim C5: when the feature id parses, the feature exists with no
launch issue, but the permission collaborator returns a non-None
redirect, do_post aborts 403 with an empty trace: no external call and
no write to the feature. -/
theorem do_post_forbidden_no_side_effects
    (env : Env) (body : CreateLaunchIssueRequest)
    (feature_id : Int) (feature : FeatureEntry)
    (hfid : body.feature_id = some (.int feature_id))
    (hfeat : env.featureEntryById feature_id = some feature)
    (hli : feature.launch_issue_id = none)
    (hperm : env.validate_feature_edit_permission feature_id = some ()) :
    do_post env body =
      ([], Outcome.abort 403
        "User does not have permission to edit this feature.") := by
  simp [do_post, hfid, hfeat, hli, hperm]

/-- Witness for claim C5: feature 42 exists without a launch issue, the
gate is valid, but permission is denied, so the response is 403 and the
trace is empty. -/
theorem do_post_forbidden_no_side_effects_witness :
    do_post
      (envWith featuresW (fun _ => some ()) (.ret (some 1) none)
        .requestException)
      bodyW =
    ([], Outcome.abort 403
      "User does not have permission to edit this feature.") :=
  do_post_forbidden_no_side_effects
    (envWith featuresW (fun _ => some ()) (.ret (some 1) none)
      .requestException)
    bodyW 42 { continuity_id := some 777, launch_issue_id := none }
    rfl rfl rfl rfl

/-- Claim C2: the validation checks of do_post fire in exactly the source
order, each failure aborting at once with the stated status and message.
Every conjunct assumes only that the earlier checks passed and nothing
about later inputs or collaborators, so each failure provably skips all
later checks; in particular the existence and state checks 1 to 4 carry
no hypothesis about the permission collaborator, so they happen before
authorization. -/
theorem do_post_validation_sequence :
    (∀ (env : Env) (body : CreateLaunchIssueRequest),
        body.feature_id = none →
        do_post env body = ([], Outcome.abort 400 "No feature specified.")) ∧
    (∀ (env : Env) (body : CreateLaunchIssueRequest) (s : String),
        body.feature_id = some (PyVal.str s) →
        do_post env body = ([], Outcome.abort 400 "Invalid feature ID.")) ∧
    (∀ (env : Env) (body : CreateLaunchIssueRequest) (fid : Int),
        body.feature_id = some (PyVal.int fid) →
        env.featureEntryById fid = none →
        do_post env body =
          ([], Outcome.abort 404
            ("Feature " ++ toString fid ++ " not found"))) ∧
    (∀ (env : Env) (body : CreateLaunchIssueRequest) (fid x : Int)
        (feature : FeatureEntry),
        body.feature_id = some (PyVal.int fid) →
        env.featureEntryById fid = some feature →
        feature.launch_issue_id = some x →
        do_post env body =
          ([], Outcome.abort 400
            "Feature already has a security review issue.")) ∧
    (∀ (env : Env) (body : CreateLaunchIssueRequest) (fid : Int)
        (feature : FeatureEntry),
        body.feature_id = some (PyVal.int fid) →
        env.featureEntryById fid = some feature →
        feature.launch_issue_id = none →
        env.validate_feature_edit_permission fid = some () →
        do_post env body =
          ([], Outcome.abort 403
            "User does not have permission to edit this feature.")) ∧
    (∀ (env : Env) (body : CreateLaunchIssueRequest) (fid : Int)
        (feature : FeatureEntry),
        body.feature_id = some (PyVal.int fid) →
        env.featureEntryById fid = some feature →
        feature.launch_issue_id = none →
        env.validate_feature_edit_permission fid = none →
        body.gate_id = none →
        do_post env body = ([], Outcome.abort 400 "No gate specified.")) ∧
    (∀ (env : Env) (body : CreateLaunchIssueRequest) (fid : Int)
        (feature : FeatureEntry) (t : String),
        body.feature_id = some (PyVal.int fid) →
        env.featureEntryById fid = some feature →
        feature.launch_issue_id = none →
        env.validate_feature_edit_permission fid = none →
        body.gate_id = some (PyVal.str t) →
        do_post env body = ([], Outcome.abort 400 "Invalid gate ID.")) ∧
    (∀ (env : Env) (body : CreateLaunchIssueRequest) (fid gid : Int)
        (feature : FeatureEntry),
        body.feature_id = some (PyVal.int fid) →
        env.featureEntryById fid = some feature →
        feature.launch_issue_id = none →
        env.validate_feature_edit_permission fid = none →
        body.gate_id = some (PyVal.int gid) →
        env.gateById gid = none →
        do_post env body =
          ([], Outcome.abort 404
            ("Gate " ++ toString gid ++ " not found"))) := by
  refine ⟨?_, ?_, ?_, ?_, ?_, ?_, ?_, ?_⟩
  · intro env body h
    simp [do_post, h]
  · intro env body s h
    simp [do_post, h]
  · intro env body fid h1 h2
    simp [do_post, h1, h2]
  · intro env body fid x feature h1 h2 h3
    simp [do_post, h1, h2, h3]
  · intro env body fid feature h1 h2 h3 h4
    simp [do_post, h1, h2, h3, h4]
  · intro env body fid feature h1 h2 h3 h4 h5
    simp [do_post, h1, h2, h3, h4, h5]
  · intro env body fid feature t h1 h2 h3 h4 h5
    simp [do_post, h1, h2, h3, h4, h5]
  · intro env body fid gid feature h1 h2 h3 h4 h5 h6
    simp [do_post, h1, h2, h3, h4, h5, h6]

/-- Witness for claim C2: one concrete request per validation step, each
aborting with the stated status and message; the duplicate-issue case
aborts 400 even though permission would be denied and the gate id is
missing, showing the order of checks. -/
theorem do_post_validation_sequence_witness :
    do_post (envWith featuresW (fun _ => none) (.ret none none)
        .requestException)
      { feature_id := none, gate_id := some (.int 7) } =
      ([], Outcome.abort 400 "No feature specified.") ∧
    do_post (envWith featuresW (fun _ => none) (.ret none none)
        .requestException)
      { feature_id := some (.str "abc"), gate_id := some (.int 7) } =
      ([], Outcome.abort 400 "Invalid feature ID.") ∧
    do_post (envWith featuresW (fun _ => none) (.ret none none)
        .requestException)
      { feature_id := some (.int 43), gate_id := some (.int 7) } =
      ([], Outcome.abort 404 "Feature 43 not found") ∧
    do_post (envWith featuresDupW (fun _ => some ()) (.ret none none)
        .requestException)
      { feature_id := some (.int 42), gate_id := none } =
      ([], Outcome.abort 400 "Feature already has a security review issue.") ∧
    do_post (envWith featuresW (fun _ => some ()) (.ret none none)
        .requestException)
      { feature_id := some (.int 42), gate_id := none } =
      ([], Outcome.abort 403
        "User does not have permission to edit this feature.") ∧
    do_post (envWith featuresW (fun _ => none) (.ret none none)
        .requestException)
      { feature_id := some (.int 42), gate_id := none } =
      ([], Outcome.abort 400 "No gate specified.") ∧
    do_post (envWith featuresW (fun _ => none) (.ret none none)
        .requestException)
      { feature_id := some (.int 42), gate_id := some (.str "x") } =
      ([], Outcome.abort 400 "Invalid gate ID.") ∧
    do_post (envWith featuresW (fun _ => none) (.ret none none)
        .requestException)
      { feature_id := some (.int 42), gate_id := some (.int 8) } =
      ([], Outcome.abort 404 "Gate 8 not found") :=
  ⟨do_post_validation_sequence.1 _ _ rfl,
   do_post_validation_sequence.2.1 _ _ "abc" rfl,
   do_post_validation_sequence.2.2.1 _ _ 43 rfl rfl,
   do_post_validation_sequence.2.2.2.1 _ _ 42 99
     { continuity_id := none, launch_issue_id := some 99 } rfl rfl rfl,
   do_post_validation_sequence.2.2.2.2.1 _ _ 42
     { continuity_id := some 777, launch_issue_id := none } rfl rfl rfl rfl,
   do_post_validation_sequence.2.2.2.2.2.1 _ _ 42
     { continuity_id := some 777, launch_issue_id := none }
     rfl rfl rfl rfl rfl,
   do_post_validation_sequence.2.2.2.2.2.2.1 _ _ 42
     { continuity_id := some 777, launch_issue_id := none } "x"
     rfl rfl rfl rfl rfl,
   do_post_validation_sequence.2.2.2.2.2.2.2 _ _ 42 8
     { continuity_id := some 777, launch_issue_id := none }
     rfl rfl rfl rfl rfl rfl⟩

/-- Claim C6: when the continuity_id argument is absent or empty, do_get
aborts 400 with the message about a missing ID, and when it is a
nonempty string that does not parse as an integer it aborts 400 with the
invalid-ID message; in every case the side-effect trace is empty, so the
external verification client is never invoked. -/
theorem do_get_missing_or_unparsable_id_400 :
    (∀ env : Env,
        do_get env none =
          ([], Outcome.abort 400 "No continuity ID specified.")) ∧
    (∀ env : Env,
        do_get env (some "") =
          ([], Outcome.abort 400 "No continuity ID specified.")) ∧
    (∀ (env : Env) (s : String),
        ¬(s = "") →
        pyIntOfString s = none →
        do_get env (some s) =
          ([], Outcome.abort 400 "Invalid continuity ID.")) := by
  refine ⟨?_, ?_, ?_⟩
  · intro env
    simp [do_get]
  · intro env
    simp [do_get]
  · intro env s hs hp
    simp [do_get, hs, hp]

/-- Witness for claim C6: a missing argument and the unparsable argument
abc each abort 400 with no external call. -/
theorem do_get_missing_or_unparsable_id_400_witness :
    do_get (envWith featuresW (fun _ => none) (.ret none none)
        (.ok { launch_issue_id := some 4 })) none =
      ([], Outcome.abort 400 "No continuity ID specified.") ∧
    do_get (envWith featuresW (fun _ => none) (.ret none none)
        (.ok { launch_issue_id := some 4 })) (some "abc") =
      ([], Outcome.abort 400 "Invalid continuity ID.") :=
  ⟨do_get_missing_or_unparsable_id_400.1 _,
   do_get_missing_or_unparsable_id_400.2.2 _ "abc" (by decide) rfl⟩

/-- Claim C7: with a parseable continuity_id, a transport error from the
verification call yields 500 with the origin-trial-data message and a
KeyError (malformed payload) yields 500 with the malformed-response
message; the same malformed-response 500 holds for the creation endpoint,
so a malformed upstream response never surfaces as a 400 or as a silent
default on either endpoint. -/
theorem upstream_failures_surface_500 :
    (∀ (env : Env) (s : String) (cid : Int),
        pyIntOfString s = some cid →
        env.verify_continuity_issue cid = .requestException →
        do_get env (some s) =
          ([Event.callVerifyContinuityIssue cid],
           Outcome.abort 500 "Error obtaining origin trial data from API")) ∧
    (∀ (env : Env) (s : String) (cid : Int),
        pyIntOfString s = some cid →
        env.verify_continuity_issue cid = .keyError →
        do_get env (some s) =
          ([Event.callVerifyContinuityIssue cid],
           Outcome.abort 500 "Malformed response from origin trials API")) ∧
    (∀ (env : Env) (body : CreateLaunchIssueRequest) (fid gid : Int)
        (feature : FeatureEntry) (g : Gate),
        body.feature_id = some (PyVal.int fid) →
        env.featureEntryById fid = some feature →
        feature.launch_issue_id = none →
        env.validate_feature_edit_permission fid = none →
        body.gate_id = some (PyVal.int gid) →
        env.gateById gid = some g →
        env.create_launch_issue fid gid feature.continuity_id = .keyError →
        do_post env body =
          ([Event.callCreateLaunchIssue fid gid feature.continuity_id],
           Outcome.abort 500 "Malformed response from origin trials API")) := by
  refine ⟨?_, ?_, ?_⟩
  · intro env s cid hp hv
    simp [do_get, pyIntOfString_ne_of_some hp, hp, hv]
  · intro env s cid hp hv
    simp [do_get, pyIntOfString_ne_of_some hp, hp, hv]
  · intro env body fid gid feature g h1 h2 h3 h4 h5 h6 h7
    simp [do_post, h1, h2, h3, h4, h5, h6, h7]

/-- Witness for claim C7: continuity id 123 with a transport error gives
the 500 transport message, with a KeyError gives the 500 malformed
message, and a KeyError during creation for feature 42 and gate 7 gives
the same 500 malformed message. -/
theorem upstream_failures_surface_500_witness :
    do_get (envWith featuresW (fun _ => none) (.ret none none)
        .requestException) (some "123") =
      ([Event.callVerifyContinuityIssue 123],
       Outcome.abort 500 "Error obtaining origin trial data from API") ∧
    do_get (envWith featuresW (fun _ => none) (.ret none none)
        .keyError) (some "123") =
      ([Event.callVerifyContinuityIssue 123],
       Outcome.abort 500 "Malformed response from origin trials API") ∧
    do_post (envWith featuresW (fun _ => none) .keyError
        (.ok { launch_issue_id := none })) bodyW =
      ([Event.callCreateLaunchIssue 42 7 (some 777)],
       Outcome.abort 500 "Malformed response from origin trials API") :=
  ⟨upstream_failures_surface_500.1 _ "123" 123 rfl rfl,
   upstream_failures_surface_500.2.1 _ "123" 123 rfl rfl,
   upstream_failures_surface_500.2.2 _ bodyW 42 7
     { continuity_id := some 777, launch_issue_id := none } { id := 7 }
     rfl rfl rfl rfl rfl rfl rfl⟩

/-- Claim C8: with a parseable continuity_id, do_get makes exactly one
external call, carrying the parsed integer, and on success returns the
upstream response mapped through from_dict into the response schema; the
trace holds nothing but that one call, so there is no other side
effect. -/
theorem do_get_success_single_call_mapped_response
    (env : Env) (s : String) (cid : Int) (resp : VerifyRespDict)
    (hparse : pyIntOfString s = some cid)
    (hver : env.verify_continuity_issue cid = .ok resp) :
    do_get env (some s) =
      ([Event.callVerifyContinuityIssue cid],
       Outcome.verifyResponse
         (VerifyContinuityIssueResponse.from_dict resp)) := by
  simp [do_get, pyIntOfString_ne_of_some hparse, hparse, hver]

/-- Witness for claim C8: continuity id 123 with an upstream dictionary
holding launch issue 555 yields one call with 123 and the mapped
response. -/
theorem do_get_success_single_call_mapped_response_witness :
    do_get (envWith featuresW (fun _ => none) (.ret none none)
        (.ok { launch_issue_id := some 555 })) (some "123") =
      ([Event.callVerifyContinuityIssue 123],
       Outcome.verifyResponse { launch_issue_id := some 555 }) :=
  do_get_success_single_call_mapped_response
    (envWith featuresW (fun _ => none) (.ret none none)
      (.ok { launch_issue_id := some 555 }))
    "123" 123 { launch_issue_id := some 555 } rfl rfl

/-- Claim C9: when all validation passes and the external
create_launch_issue call raises (transport error or KeyError), do_post
aborts 500 and its trace holds only the external call: no putFeature
write occurs, so the feature, whose launch_issue_id was still None, is
unchanged. -/
theorem do_post_upstream_exception_aborts_before_write
    (env : Env) (body : CreateLaunchIssueRequest)
    (fid gid : Int) (feature : FeatureEntry) (g : Gate)
    (hfid : body.feature_id = some (.int fid))
    (hfeat : env.featureEntryById fid = some feature)
    (hli : feature.launch_issue_id = none)
    (hperm : env.validate_feature_edit_permission fid = none)
    (hgid : body.gate_id = some (.int gid))
    (hgate : env.gateById gid = some g) :
    (env.create_launch_issue fid gid feature.continuity_id =
        .requestException →
      do_post env body =
        ([Event.callCreateLaunchIssue fid gid feature.continuity_id],
         Outcome.abort 500 "Error obtaining origin trial data from API")) ∧
    (env.create_launch_issue fid gid feature.continuity_id = .keyError →
      do_post env body =
        ([Event.callCreateLaunchIssue fid gid feature.continuity_id],
         Outcome.abort 500 "Malformed response from origin trials API")) := by
  constructor
  · intro hcall
    simp [do_post, hfid, hfeat, hli, hperm, hgid, hgate, hcall]
  · intro hcall
    simp [do_post, hfid, hfeat, hli, hperm, hgid, hgate, hcall]

/-- Witness for claim C9: feature 42 and gate 7 with a transport error
during creation abort 500 with a trace holding only the external call
and no write. -/
theorem do_post_upstream_exception_aborts_before_write_witness :
    do_post (envWith featuresW (fun _ => none) .requestException
        (.ok { launch_issue_id := none })) bodyW =
      ([Event.callCreateLaunchIssue 42 7 (some 777)],
       Outcome.abort 500 "Error obtaining origin trial data from API") :=
  (do_post_upstream_exception_aborts_before_write
    (envWith featuresW (fun _ => none) .requestException
      (.ok { launch_issue_id := none }))
    bodyW 42 7 { continuity_id := some 777, launch_issue_id := none }
    { id := 7 } rfl rfl rfl rfl rfl rfl).1 rfl

/-- Claim C10: when all validation passes and the external call returns
the pair (None, None), do_post performs no putFeature write (the trace
holds only the external call) yet still returns the success message with
the literal text None spliced in, so endpoint success does not imply an
issue was created or recorded. -/
theorem do_post_none_issue_id_success_without_persistence
    (env : Env) (body : CreateLaunchIssueRequest)
    (fid gid : Int) (feature : FeatureEntry) (g : Gate)
    (hfid : body.feature_id = some (.int fid))
    (hfeat : env.featureEntryById fid = some feature)
    (hli : feature.launch_issue_id = none)
    (hperm : env.validate_feature_edit_permission fid = none)
    (hgid : body.gate_id = some (.int gid))
    (hgate : env.gateById gid = some g)
    (hcall : env.create_launch_issue fid gid feature.continuity_id =
      .ret none none) :
    do_post env body =
      ([Event.callCreateLaunchIssue fid gid feature.continuity_id],
       Outcome.success "Security review issue None created") := by
  simp [do_post, hfid, hfeat, hli, hperm, hgid, hgate, hcall, pyTruthy,
    pyStrOptInt]

/-- Witness for claim C10: feature 42 and gate 7 with the external call
returning neither an issue id nor a failure reason give a 200 success
whose message splices the text None, with no write in the trace. -/
theorem do_post_none_issue_id_success_without_persistence_witness :
    do_post (envWith featuresW (fun _ => none) (.ret none none)
        .requestException) bodyW =
      ([Event.callCreateLaunchIssue 42 7 (some 777)],
       Outcome.success "Security review issue None created") :=
  do_post_none_issue_id_success_without_persistence
    (envWith featuresW (fun _ => none) (.ret none none) .requestException)
    bodyW 42 7 { continuity_id := some 777, launch_issue_id := none }
    { id := 7 } rfl rfl rfl rfl rfl rfl rfl
